import Mathlib

/-!
# Verification of the PiRexBot runtime supervisor (src/src/app/pirexbot.cpp)

A shallow embedding of the orchestration core of `pirexbot.cpp`:

* the `Settings` record and its defaults (`SetDefaultSettings`),
* the command-line parser (`ParseCommandLine`), including tokenization,
  per-key processing, numeric clamping and the post-loop authorization
  group override rule,
* the control loop of `main` as an event-trace function (`mainRun`):
  periodic persistence, motor safety watchdog, activity LED, ordered
  shutdown, and process exit codes,
* the camera error listener and the signal handler feeding the exit event.

Machine integers (the `uint32_t` fields filled by `sscanf "%u"`) are
modelled as `Nat` with explicit reduction modulo `2 ^ 32`.
-/

/-- Authorization groups used by the web server (`UserGroup` in the sources):
the closed enumeration `{Anyone, User, Admin}`. -/
inductive UserGroup where
  | Anyone
  | User
  | Admin
  deriving DecidableEq, Repr

/-- The global `Settings` struct of `pirexbot.cpp` (lines 85-101). -/
structure Settings where
  FrameWidth : Nat
  FrameHeight : Nat
  FrameRate : Nat
  JpegQuality : Nat
  WebPort : Nat
  HtRealm : String
  HtDigestFileName : String
  CameraConfigFileName : String
  CustomWebContent : String
  BotTitle : String
  ViewersGroup : UserGroup
  ConfigGroup : UserGroup
  deriving DecidableEq, Repr

/-- `SetDefaultSettings` (lines 129-158).  `homeDir` stands for the result of
`getpwuid(getuid())` (`none` models a null `passwd` entry, leaving the default
config-file name empty); `releaseBuild` models the `NDEBUG` conditional that
clears `CustomWebContent` in release builds. -/
def SetDefaultSettings (homeDir : Option String) (releaseBuild : Bool) : Settings :=
  { FrameWidth := 640
    FrameHeight := 480
    FrameRate := 30
    JpegQuality := 10
    WebPort := 8000
    HtRealm := "pirexbot"
    HtDigestFileName := ""
    CameraConfigFileName :=
      match homeDir with
      | some d => d ++ "/.cam_config"
      | none => ""
    CustomWebContent := if releaseBuild then "" else "./web"
    BotTitle := "PiRex Bot"
    ViewersGroup := UserGroup.Anyone
    ConfigGroup := UserGroup.Anyone }

/-- `strchr(s, ':')`: split a character list at the first `':'`, returning
the characters before it and the characters after it, or `none` when there is
no `':'` in the list. -/
def strchrColon : List Char → Option (List Char × List Char)
  | [] => none
  | c :: rest =>
    if c = ':' then some ([], rest)
    else
      match strchrColon rest with
      | none => none
      | some (pre, post) => some (c :: pre, post)

/-- Tokenization step of the `ParseCommandLine` loop (lines 183-194): a token
yields a `(key, value)` pair when it contains a `':'`, starts with `'-'`, and
both the key (characters between `'-'` and `':'`) and the value (characters
after the first `':'`) are non-empty; otherwise the loop breaks. -/
def tokenKV (t : List Char) : Option (List Char × List Char) :=
  match strchrColon t with
  | none => none
  | some (pre, post) =>
    match t with
    | '-' :: _ =>
      if pre.drop 1 = [] ∨ post = [] then none
      else some (pre.drop 1, post)
    | _ => none

/-- `SupportedWidth` table (line 163). -/
def SupportedWidth : List Nat := [320, 480, 640, 800, 1120]

/-- `SupportedHeight` table (line 164). -/
def SupportedHeight : List Nat := [240, 360, 480, 600, 840]

/-- `SupportedUserGroups` map (lines 165-170). -/
def SupportedUserGroups : List (List Char × UserGroup) :=
  [("any".toList, UserGroup.Anyone),
   ("user".toList, UserGroup.User),
   ("admin".toList, UserGroup.Admin)]

/-- Value of a run of decimal digits. -/
def digitsVal (ds : List Char) : Nat :=
  ds.foldl (fun a c => a * 10 + (c.toNat - 48)) 0

/-- Digit-run step of `sscanf "%u"`: fails when no digit is present, otherwise
converts the maximal leading digit run, reduced modulo `2 ^ 32` (the value is
stored into a `uint32_t`), negating modulo `2 ^ 32` after a `'-'` sign. -/
def scanDigits (s : List Char) (neg : Bool) : Option Nat :=
  let ds := s.takeWhile Char.isDigit
  if ds = [] then none
  else
    let v := digitsVal ds % 2 ^ 32
    some (if neg then (2 ^ 32 - v) % 2 ^ 32 else v)

/-- C `isspace` character class. -/
def isSpaceChar (c : Char) : Bool :=
  c = ' ' ∨ c = '\t' ∨ c = '\n' ∨ c = '\r' ∨ c = '\x0b' ∨ c = '\x0c'

/-- Model of `sscanf(value, "%u", &field)` used for the `fps`, `jpeg` and
`port` options: skip leading whitespace, accept an optional sign, then require
at least one decimal digit; `none` models `sscanf` returning `0` matches. -/
def sscanfU (s : List Char) : Option Nat :=
  match s.dropWhile isSpaceChar with
  | '-' :: rest => scanDigits rest true
  | '+' :: rest => scanDigits rest false
  | rest => scanDigits rest false

/-- Local state of `ParseCommandLine` (lines 161-178): the settings being
mutated plus the deferred viewer/config override requests.  In the C++ the two
`UserGroup` locals are uninitialized and only read under their corresponding
`override...` flag; they are modelled as starting at `Anyone`. -/
structure LoopState where
  settings : Settings
  overrideViewersGroup : Bool
  overrideConfigGroup : Bool
  viewersGroup : UserGroup
  configGroup : UserGroup
  deriving DecidableEq, Repr

/-- Loop-local state at entry of `ParseCommandLine`. -/
def initLoopState (s : Settings) : LoopState :=
  { settings := s
    overrideViewersGroup := false
    overrideConfigGroup := false
    viewersGroup := UserGroup.Anyone
    configGroup := UserGroup.Anyone }

/-- Key dispatch of the `ParseCommandLine` loop body (lines 196-293).
`none` models `break`. -/
def processToken (st : LoopState) (key value : List Char) : Option LoopState :=
  if key = "size".toList then
    -- int v = value[0] - '0';  (the local v is inlined here)
    if ((value.headD '0').toNat : Int) - 48 < 0 ∨ 4 < ((value.headD '0').toNat : Int) - 48
    then none
    else some { st with settings :=
      { st.settings with
        FrameWidth := SupportedWidth.getD (((value.headD '0').toNat : Int) - 48).toNat 0
        FrameHeight := SupportedHeight.getD (((value.headD '0').toNat : Int) - 48).toNat 0 } }
  else if key = "fps".toList then
    match sscanfU value with
    | none => none
    | some v =>
      some { st with settings :=
        { st.settings with FrameRate := if v < 1 ∨ 30 < v then 30 else v } }
  else if key = "jpeg".toList then
    match sscanfU value with
    | none => none
    | some v =>
      -- the source clamps twice in sequence: JpegQuality = 1 if < 1,
      -- then JpegQuality = 100 if > 100; the two assignments are composed here
      some { st with settings := { st.settings with
        JpegQuality := if 100 < (if v < 1 then 1 else v) then 100
                       else (if v < 1 then 1 else v) } }
  else if key = "port".toList then
    match sscanfU value with
    | none => none
    | some v =>
      some { st with settings :=
        { st.settings with WebPort := if 65535 < v then 65535 else v } }
  else if key = "realm".toList then
    some { st with settings := { st.settings with HtRealm := String.mk value } }
  else if key = "htpass".toList then
    some { st with settings :=
      { st.settings with
        HtDigestFileName := String.mk value
        ViewersGroup := UserGroup.User
        ConfigGroup := UserGroup.Admin } }
  else if key = "viewer".toList then
    match List.lookup value SupportedUserGroups with
    | none => none
    | some g => some { st with viewersGroup := g, overrideViewersGroup := true }
  else if key = "config".toList then
    match List.lookup value SupportedUserGroups with
    | none => none
    | some g => some { st with configGroup := g, overrideConfigGroup := true }
  else if key = "fcfg".toList then
    some { st with settings := { st.settings with CameraConfigFileName := String.mk value } }
  else if key = "web".toList then
    some { st with settings := { st.settings with CustomWebContent := String.mk value } }
  else if key = "title".toList then
    some { st with settings := { st.settings with BotTitle := String.mk value } }
  else none

/-- One full iteration of the `ParseCommandLine` loop on one token:
tokenize, then dispatch; `none` models `break`. -/
def tokenStep (st : LoopState) (t : List Char) : Option LoopState :=
  match tokenKV t with
  | none => none
  | some (k, v) => processToken st k v

/-- The `for` loop of `ParseCommandLine` (lines 181-294): consume tokens until
one fails, returning the final loop state and the unconsumed suffix. -/
def parseLoop (st : LoopState) : List (List Char) → LoopState × List (List Char)
  | [] => (st, [])
  | t :: rest =>
    match tokenStep st t with
    | none => (st, t :: rest)
    | some st2 => parseLoop st2 rest

/-- Post-loop authorization override rule (lines 296-312): when a non-`Anyone`
viewer or config override was requested but no credentials file is configured,
print a warning (the returned `Bool`) and ignore the overrides; otherwise
apply the requested overrides. -/
def applyOverrides (st : LoopState) : Settings × Bool :=
  if ((st.overrideViewersGroup = true ∧ st.viewersGroup ≠ UserGroup.Anyone) ∨
      (st.overrideConfigGroup = true ∧ st.configGroup ≠ UserGroup.Anyone)) ∧
     st.settings.HtDigestFileName = "" then
    (st.settings, true)
  else
    let s1 := if st.overrideViewersGroup then
        { st.settings with ViewersGroup := st.viewersGroup }
      else st.settings
    let s2 := if st.overrideConfigGroup then
        { s1 with ConfigGroup := st.configGroup }
      else s1
    (s2, false)

/-- Result of `ParseCommandLine`: the final settings, the return value
(`true` iff every token was consumed, lines 314-353), whether the override
warning was printed, plus the final loop state and unconsumed suffix
(exposed for stating properties). -/
structure ParseResult where
  settings : Settings
  ok : Bool
  warned : Bool
  loopState : LoopState
  remaining : List (List Char)
  deriving DecidableEq, Repr

/-- `ParseCommandLine` (lines 161-356) over a list of argument strings
(`argv[1..]`). -/
def ParseCommandLine (init : Settings) (args : List String) : ParseResult :=
  let p := parseLoop (initLoopState init) (args.map String.toList)
  let q := applyOverrides p.1
  { settings := q.1
    ok := p.2.isEmpty
    warned := q.2
    loopState := p.1
    remaining := p.2 }

/-! ## Trace model of `main` (lines 386-581)

The control loop and shutdown of `main` are modelled as a function producing
the list of orchestration events performed plus the exit code.  External
collaborators are folded into the model as inputs: the web server's per-tick
access times (`TickEnv`), whether `server.Start()` succeeds, and the number of
loop iterations before `ExitEvent.Wait(1000)` observes the exit signal.
The feature-gated distance-controller calls (absent unless
`BOT_DISTANCE_ENABLE_MEASUREMENTS` is defined) are not modelled; the
feature-gated activity LED (lines 553-558) is modelled as present, since the
spec covers it. -/

/-- Environment of one control-loop tick: the current `steady_clock` time and
the web server's last-access ledger, all in milliseconds.  `lastAccess`
models `server.LastAccessTime(endpoint)`, `lastAccessGlobal` models
`server.LastAccessTime()` (most recent access across all endpoints). -/
structure TickEnv where
  now : Int
  lastAccess : String → Int
  lastAccessGlobal : Int

/-- Orchestration events performed by `main`. -/
inductive Event where
  /-- the loop body's `++saveCounter` persistence check (lines 538-543) -/
  | persistTick
  /-- `serializer.SaveConfiguration()` -/
  | saveConfig
  /-- `serializer.LoadConfiguration()` (line 462) -/
  | loadConfig
  /-- `motorsController->Stop()` (line 550) -/
  | motorStop
  /-- `digitalWrite(BOT_PIN_CONNECTION_ACTIVE_LED, high)` (line 557) -/
  | ledWrite (high : Bool)
  /-- `BotInit()` (line 398) -/
  | botInit
  /-- `xcamera->Start()` (line 530) -/
  | cameraStart
  /-- `xcamera->SignalToStop()` (line 566) -/
  | cameraSignalStop
  /-- `xcamera->WaitForStop()` (line 567) -/
  | cameraWaitStop
  /-- `server.Stop()` (line 568) -/
  | serverStop
  /-- the "Failed starting web server" diagnostic (line 574) -/
  | startFailed
  /-- `BotShutDown()` (line 578) -/
  | botShutdown
  deriving DecidableEq, Repr

/-- The activity-LED value computed at line 557:
on iff the time since the most recent access is below 2000ms. -/
def activityLed (now lastGlobal : Int) : Bool :=
  decide (now - lastGlobal < 2000)

/-- The watchdog decision of lines 546-551, in the spec's
`tick -> {NoAction, StopIssued}` shape. -/
inductive WatchdogAction where
  | NoAction
  | StopIssued
  deriving DecidableEq, Repr

/-- Safety watchdog (lines 546-551): stop the motors iff at least 1000ms
elapsed since the last access to the motor-control endpoint. -/
def watchdogTick (now lastMotorAccess : Int) : WatchdogAction :=
  if now - lastMotorAccess ≥ 1000 then WatchdogAction.StopIssued
  else WatchdogAction.NoAction

/-- Events of one control-loop body iteration (lines 538-558), given the tick
environment and the value of `saveCounter` before the iteration: the
persistence-counter check (saving on the 60th tick), the motor watchdog,
then the activity-LED write. -/
def loopBodyEvents (env : TickEnv) (c : Nat) : List Event :=
  Event.persistTick ::
    ((if c + 1 = 60 then [Event.saveConfig] else []) ++
     (if env.now - env.lastAccess "/motors/config" ≥ 1000 then [Event.motorStop] else []) ++
     [Event.ledWrite (activityLed env.now env.lastAccessGlobal)])

/-- `saveCounter` update of one loop iteration (lines 538-543). -/
def loopNextCounter (c : Nat) : Nat :=
  if c + 1 = 60 then 0 else c + 1

/-- `saveCounter` after `n` loop iterations, starting from 0 (line 525). -/
def loopCounterAfter : Nat → Nat
  | 0 => 0
  | n + 1 => loopNextCounter (loopCounterAfter n)

/-- The `while (!ExitEvent.Wait(1000))` loop (lines 536-559): run the body for
the given number of remaining iterations (the iterations whose `Wait` timed
out before the exit signal was observed), threading the save counter `c`;
`i` indexes the per-tick environments. -/
def controlLoop (envs : Nat → TickEnv) : Nat → Nat → Nat → List Event
  | _, _, 0 => []
  | c, i, n + 1 =>
    loopBodyEvents (envs i) c ++ controlLoop envs (loopNextCounter c) (i + 1) n

/-- Teardown sequence after the loop exits (lines 565-578): final
configuration save, camera stop signalled then awaited, web server stopped,
bot GPIO shutdown. -/
def shutdownSeq : List Event :=
  [Event.saveConfig, Event.cameraSignalStop, Event.cameraWaitStop,
   Event.serverStop, Event.botShutdown]

/-- `main` (lines 386-581) as a trace function: parse the command line from
defaults; on parse failure return `-1` immediately; otherwise initialize the
bot, load the saved configuration, and — if `server.Start()` succeeds — start
the camera, run `n` loop iterations until the exit signal is observed, and
tear down; on `server.Start()` failure print a diagnostic.  Either way the
final return statement yields `0`. -/
def mainRun (homeDir : Option String) (releaseBuild : Bool) (args : List String)
    (serverStartOk : Bool) (n : Nat) (envs : Nat → TickEnv) : List Event × Int :=
  let pr := ParseCommandLine (SetDefaultSettings homeDir releaseBuild) args
  if pr.ok then
    if serverStartOk then
      ([Event.botInit, Event.loadConfig, Event.cameraStart] ++
         controlLoop envs 0 0 n ++ shutdownSeq, 0)
    else
      ([Event.botInit, Event.loadConfig, Event.startFailed, Event.botShutdown], 0)
  else
    ([], -1)

/-! ## Exit event, signal handler and camera error listener -/

/-- State of the process-wide `XManualResetEvent ExitEvent` (line 82).
Modelled from the spec: `XManualResetEvent` itself is not under `src/`; per
spec §4.1 `Signal()` is an idempotent set observable by `Wait`. -/
structure ExitEventState where
  signaled : Bool
  deriving DecidableEq, Repr

/-- `ExitEvent.Signal()` — modelled from the spec (§4.1): idempotent set. -/
def signalEvent (_ : ExitEventState) : ExitEventState :=
  { signaled := true }

/-- `sigIntHandler` (lines 104-107): raise the exit event. -/
def sigIntHandlerModel (s : ExitEventState) : ExitEventState :=
  signalEvent s

/-- `CameraErrorListener::OnError` (lines 117-125): returns the updated exit
event state and the printed diagnostic line; the exit event is signaled only
when the error is fatal. -/
def onCameraError (errorMessage : String) (fatal : Bool) (s : ExitEventState) :
    ExitEventState × String :=
  ((if fatal then signalEvent s else s),
   "[" ++ (if fatal then "Fatal" else "Error") ++ "] : " ++ errorMessage ++ " ")

/-! ## Helper lemmas about the loop body -/

theorem motorStop_mem_loopBodyEvents (env : TickEnv) (c : Nat) :
    Event.motorStop ∈ loopBodyEvents env c ↔
      env.now - env.lastAccess "/motors/config" ≥ 1000 := by
  unfold loopBodyEvents
  by_cases h1 : c + 1 = 60 <;>
    by_cases h2 : env.now - env.lastAccess "/motors/config" ≥ 1000 <;>
      simp [h1, h2]

theorem saveConfig_mem_loopBodyEvents (env : TickEnv) (c : Nat) :
    Event.saveConfig ∈ loopBodyEvents env c ↔ c + 1 = 60 := by
  unfold loopBodyEvents
  by_cases h1 : c + 1 = 60 <;>
    by_cases h2 : env.now - env.lastAccess "/motors/config" ≥ 1000 <;>
      simp [h1, h2]

theorem loopCounterAfter_mod (n : Nat) : loopCounterAfter n = n % 60 := by
  induction n with
  | zero => rfl
  | succ n ih =>
    unfold loopCounterAfter loopNextCounter
    rw [ih]
    by_cases h : n % 60 + 1 = 60 <;> simp [h] <;> omega

/-! ## Claim theorems: control loop, errors and exit codes -/

/-- C5: on every control-loop tick, the watchdog issues a stop command to the
motor subsystem if and only if the elapsed time since the last recorded access
to the "/motors/config" endpoint is at least 1000ms; with last access at
`now - 1500` it stops the motors, with last access at `now - 500` it does
not. -/
theorem C5_motor_watchdog :
    (∀ (env : TickEnv) (c : Nat),
      Event.motorStop ∈ loopBodyEvents env c ↔
        env.now - env.lastAccess "/motors/config" ≥ 1000) ∧
    (∀ (env : TickEnv) (c : Nat),
      watchdogTick env.now (env.lastAccess "/motors/config") =
          WatchdogAction.StopIssued ↔
        Event.motorStop ∈ loopBodyEvents env c) ∧
    (∀ (now : Int) (c : Nat),
      Event.motorStop ∈
        loopBodyEvents
          { now := now, lastAccess := fun _ => now - 1500, lastAccessGlobal := now } c ∧
      Event.motorStop ∉
        loopBodyEvents
          { now := now, lastAccess := fun _ => now - 500, lastAccessGlobal := now } c) := by
  refine ⟨motorStop_mem_loopBodyEvents, ?_, ?_⟩
  · intro env c
    rw [motorStop_mem_loopBodyEvents]
    unfold watchdogTick
    by_cases h : env.now - env.lastAccess "/motors/config" ≥ 1000 <;> simp [h]
  · intro now c
    constructor
    · rw [motorStop_mem_loopBodyEvents]
      simp
    · rw [motorStop_mem_loopBodyEvents]
      simp

/-- C5 witness: concrete instantiation at `now = 10000`, counter 0. -/
theorem C5_motor_watchdog_witness :
    Event.motorStop ∈
      loopBodyEvents
        { now := 10000, lastAccess := fun _ => 10000 - 1500, lastAccessGlobal := 10000 } 0 ∧
    Event.motorStop ∉
      loopBodyEvents
        { now := 10000, lastAccess := fun _ => 10000 - 500, lastAccessGlobal := 10000 } 0 :=
  C5_motor_watchdog.2.2 10000 0

/-- C6: starting from a save counter of 0, the loop's persistence check fires
exactly on every 60th tick: the counter after `n` ticks is `n % 60`, and tick
`n + 1` (which runs the body on counter `loopCounterAfter n`) performs a
configuration save iff `(n + 1) % 60 = 0` — so ticks 1-59 do not save, tick 60
saves and resets the counter to 0, ticks 61-119 do not save, tick 120 saves. -/
theorem C6_persistence_schedule :
    (∀ n : Nat, loopCounterAfter n = n % 60) ∧
    (∀ (env : TickEnv) (n : Nat),
      Event.saveConfig ∈ loopBodyEvents env (loopCounterAfter n) ↔
        (n + 1) % 60 = 0) := by
  refine ⟨loopCounterAfter_mod, ?_⟩
  intro env n
  rw [saveConfig_mem_loopBodyEvents, loopCounterAfter_mod]
  omega

/-- C6 witness: tick 60 saves and resets the counter, ticks 59 and 61 do not
save, tick 120 saves. -/
theorem C6_persistence_schedule_witness :
    loopCounterAfter 60 = 60 % 60 ∧
    (Event.saveConfig ∈
        loopBodyEvents { now := 0, lastAccess := fun _ => 0, lastAccessGlobal := 0 }
          (loopCounterAfter 59) ↔ (59 + 1) % 60 = 0) ∧
    (Event.saveConfig ∈
        loopBodyEvents { now := 0, lastAccess := fun _ => 0, lastAccessGlobal := 0 }
          (loopCounterAfter 58) ↔ (58 + 1) % 60 = 0) ∧
    (Event.saveConfig ∈
        loopBodyEvents { now := 0, lastAccess := fun _ => 0, lastAccessGlobal := 0 }
          (loopCounterAfter 119) ↔ (119 + 1) % 60 = 0) :=
  ⟨C6_persistence_schedule.1 60,
   C6_persistence_schedule.2 _ 59,
   C6_persistence_schedule.2 _ 58,
   C6_persistence_schedule.2 _ 119⟩

/-- C8: on every control-loop tick the activity LED is written with value On
(`true`) exactly when the elapsed time since the most recent access across all
endpoints is strictly below 2000ms: elapsed 1999 yields On, elapsed 2000
yields Off. -/
theorem C8_activity_indicator :
    (∀ now lastGlobal : Int,
      activityLed now lastGlobal = true ↔ now - lastGlobal < 2000) ∧
    (∀ (env : TickEnv) (c : Nat),
      Event.ledWrite (activityLed env.now env.lastAccessGlobal) ∈ loopBodyEvents env c) ∧
    (∀ now : Int,
      activityLed now (now - 1999) = true ∧ activityLed now (now - 2000) = false) := by
  refine ⟨?_, ?_, ?_⟩
  · intro now lastGlobal
    simp [activityLed]
  · intro env c
    unfold loopBodyEvents
    by_cases h1 : c + 1 = 60 <;>
      by_cases h2 : env.now - env.lastAccess "/motors/config" ≥ 1000 <;>
        simp [h1, h2]
  · intro now
    constructor
    · simp [activityLed]
    · simp [activityLed]

/-- C8 witness: concrete boundary instantiation at `now = 5000`. -/
theorem C8_activity_indicator_witness :
    activityLed 5000 (5000 - 1999) = true ∧ activityLed 5000 (5000 - 2000) = false :=
  C8_activity_indicator.2.2 5000

/-- C9: the camera error listener signals the exit event iff the reported
error is fatal; a fatal error performs exactly the state change of the OS
signal handler, and a non-fatal error leaves the exit event untouched (only a
diagnostic is printed). -/
theorem C9_fatal_camera_error :
    ∀ (msg : String) (fatal : Bool) (s : ExitEventState),
      ((onCameraError msg fatal s).1.signaled = (fatal || s.signaled)) ∧
      (fatal = true → (onCameraError msg fatal s).1 = sigIntHandlerModel s) ∧
      (fatal = false → (onCameraError msg fatal s).1 = s) := by
  intro msg fatal s
  cases fatal <;> cases s <;>
    simp [onCameraError, signalEvent, sigIntHandlerModel]

/-- C9 witness: from an unsignaled exit event, a fatal error signals it via
the same path as the OS signal handler and a non-fatal error does not. -/
theorem C9_fatal_camera_error_witness :
    (onCameraError "camera failure" true { signaled := false }).1.signaled = true ∧
    (onCameraError "camera failure" true { signaled := false }).1 =
      sigIntHandlerModel { signaled := false } ∧
    (onCameraError "glitch" false { signaled := false }).1 = { signaled := false } := by
  refine ⟨?_, ?_, ?_⟩
  · have h := (C9_fatal_camera_error "camera failure" true { signaled := false }).1
    simpa using h
  · exact (C9_fatal_camera_error "camera failure" true { signaled := false }).2.1 rfl
  · exact (C9_fatal_camera_error "glitch" false { signaled := false }).2.2 rfl

/-- C1 counterexample: with an empty (successfully parsed) command line and
`server.Start()` returning `false`, `main` prints a diagnostic but still
returns `0` — not a non-zero value as the claim states. -/
theorem C1_exit_code_counterexample :
    (ParseCommandLine (SetDefaultSettings none false) []).ok = true ∧
    (mainRun none false [] false 0
        (fun _ => { now := 0, lastAccess := fun _ => 0, lastAccessGlobal := 0 })).1 =
      [Event.botInit, Event.loadConfig, Event.startFailed, Event.botShutdown] ∧
    (mainRun none false [] false 0
        (fun _ => { now := 0, lastAccess := fun _ => 0, lastAccessGlobal := 0 })).2 = 0 :=
  ⟨rfl, rfl, rfl⟩

/-- C1 (amended): the process exit code is `-1` exactly when command-line
parsing fails, and `0` otherwise — including on normal shutdown and also
when `server.Start()` returns `false` (where only a diagnostic is printed). -/
theorem C1_exit_code (homeDir : Option String) (releaseBuild : Bool)
    (args : List String) (serverStartOk : Bool) (n : Nat) (envs : Nat → TickEnv) :
    (mainRun homeDir releaseBuild args serverStartOk n envs).2 =
      if (ParseCommandLine (SetDefaultSettings homeDir releaseBuild) args).ok
      then 0 else -1 := by
  unfold mainRun
  by_cases h : (ParseCommandLine (SetDefaultSettings homeDir releaseBuild) args).ok <;>
    cases serverStartOk <;> simp [h]

/-- C1 witness: concrete instantiations — a malformed command line exits with
`-1`, an empty one with `0`. -/
theorem C1_exit_code_witness :
    (mainRun none false ["nonsense"] true 0
        (fun _ => { now := 0, lastAccess := fun _ => 0, lastAccessGlobal := 0 })).2 =
      (if (ParseCommandLine (SetDefaultSettings none false) ["nonsense"]).ok
       then 0 else -1) ∧
    (mainRun none false [] true 0
        (fun _ => { now := 0, lastAccess := fun _ => 0, lastAccessGlobal := 0 })).2 =
      (if (ParseCommandLine (SetDefaultSettings none false) []).ok then 0 else -1) :=
  ⟨C1_exit_code none false ["nonsense"] true 0 _,
   C1_exit_code none false [] true 0 _⟩

/-- C7: whenever the exit event is observed mid-loop (after `n` timed-out
waits) and startup succeeded, the trace is the loop trace followed by exactly
the teardown sequence: no further persistence ticks occur after the signal is
observed, exactly one final configuration save is performed, the capture stop
is signalled then awaited strictly before the web server is stopped, and the
process exits with code 0. -/
theorem C7_shutdown_sequence (homeDir : Option String) (releaseBuild : Bool)
    (args : List String) (n : Nat) (envs : Nat → TickEnv)
    (h : (ParseCommandLine (SetDefaultSettings homeDir releaseBuild) args).ok = true) :
    (mainRun homeDir releaseBuild args true n envs).1 =
      [Event.botInit, Event.loadConfig, Event.cameraStart] ++
        controlLoop envs 0 0 n ++ shutdownSeq ∧
    shutdownSeq.count Event.persistTick = 0 ∧
    shutdownSeq.count Event.saveConfig = 1 ∧
    shutdownSeq.indexOf Event.cameraSignalStop < shutdownSeq.indexOf Event.cameraWaitStop ∧
    shutdownSeq.indexOf Event.cameraWaitStop < shutdownSeq.indexOf Event.serverStop ∧
    (mainRun homeDir releaseBuild args true n envs).2 = 0 := by
  refine ⟨?_, by decide, by decide, by decide, by decide, ?_⟩
  · simp [mainRun, h]
  · simp [mainRun, h]

/-- C7 witness: two loop ticks before the signal, empty command line. -/
theorem C7_shutdown_sequence_witness :
    (ParseCommandLine (SetDefaultSettings none false) []).ok = true ∧
    ((mainRun none false [] true 2
        (fun _ => { now := 0, lastAccess := fun _ => -1500, lastAccessGlobal := 0 })).1 =
      [Event.botInit, Event.loadConfig, Event.cameraStart] ++
        controlLoop (fun _ => { now := 0, lastAccess := fun _ => -1500, lastAccessGlobal := 0 })
          0 0 2 ++ shutdownSeq ∧
    shutdownSeq.count Event.persistTick = 0 ∧
    shutdownSeq.count Event.saveConfig = 1 ∧
    shutdownSeq.indexOf Event.cameraSignalStop < shutdownSeq.indexOf Event.cameraWaitStop ∧
    shutdownSeq.indexOf Event.cameraWaitStop < shutdownSeq.indexOf Event.serverStop ∧
    (mainRun none false [] true 2
        (fun _ => { now := 0, lastAccess := fun _ => -1500, lastAccessGlobal := 0 })).2 = 0) :=
  ⟨rfl, C7_shutdown_sequence none false [] 2 _ rfl⟩

/-! ## Helper lemmas about the parser -/

theorem ParseCommandLine_settings (init : Settings) (args : List String) :
    (ParseCommandLine init args).settings =
      (applyOverrides (parseLoop (initLoopState init) (args.map String.toList)).1).1 := rfl

theorem ParseCommandLine_warned (init : Settings) (args : List String) :
    (ParseCommandLine init args).warned =
      (applyOverrides (parseLoop (initLoopState init) (args.map String.toList)).1).2 := rfl

theorem ParseCommandLine_loopState (init : Settings) (args : List String) :
    (ParseCommandLine init args).loopState =
      (parseLoop (initLoopState init) (args.map String.toList)).1 := rfl

theorem ParseCommandLine_remaining (init : Settings) (args : List String) :
    (ParseCommandLine init args).remaining =
      (parseLoop (initLoopState init) (args.map String.toList)).2 := rfl

theorem ParseCommandLine_ok (init : Settings) (args : List String) :
    (ParseCommandLine init args).ok =
      (parseLoop (initLoopState init) (args.map String.toList)).2.isEmpty := rfl

theorem parseLoop_nil (st : LoopState) : parseLoop st [] = (st, []) := rfl

theorem parseLoop_cons (st : LoopState) (t : List Char) (rest : List (List Char)) :
    parseLoop st (t :: rest) =
      match tokenStep st t with
      | none => (st, t :: rest)
      | some st2 => parseLoop st2 rest := rfl

theorem String_mk_ne_empty (l : List Char) (h : l ≠ []) : String.mk l ≠ "" := by
  intro he
  exact h (congrArg String.data he)

theorem tokenKV_value_ne_nil (t k v : List Char) (h : tokenKV t = some (k, v)) :
    v ≠ [] := by
  unfold tokenKV at h
  split at h
  · exact absurd h (by simp)
  · split at h
    · split_ifs at h with hc
      rw [Option.some.injEq, Prod.mk.injEq] at h
      push_neg at hc
      obtain ⟨-, hv⟩ := h
      subst hv
      exact hc.2
    · exact absurd h (by simp)

/-- Invariant tying the credentials file to the authorization groups: starting
from the defaults, either no `htpass` token has been applied (file empty,
both groups still `Anyone`) or one has (file non-empty, groups `User`/`Admin`). -/
def GroupsInvS (s : Settings) : Prop :=
  (s.HtDigestFileName = "" ∧ s.ViewersGroup = UserGroup.Anyone ∧
    s.ConfigGroup = UserGroup.Anyone) ∨
  (s.HtDigestFileName ≠ "" ∧ s.ViewersGroup = UserGroup.User ∧
    s.ConfigGroup = UserGroup.Admin)

theorem processToken_groupsInv (st st2 : LoopState) (k v : List Char) (hv : v ≠ [])
    (h : processToken st k v = some st2) (inv : GroupsInvS st.settings) :
    GroupsInvS st2.settings := by
  have hne : String.mk v ≠ "" := String_mk_ne_empty v hv
  unfold processToken at h
  by_cases h1 : k = "size".toList
  · rw [if_pos h1] at h
    split_ifs at h
    all_goals
      first
        | exact Option.noConfusion h
        | (have e := Option.some.inj h; subst e; exact inv)
  rw [if_neg h1] at h
  by_cases h2 : k = "fps".toList
  · rw [if_pos h2] at h
    cases hs : sscanfU v with
    | none => rw [hs] at h; exact Option.noConfusion h
    | some n =>
      rw [hs] at h
      have e := Option.some.inj h
      subst e
      exact inv
  rw [if_neg h2] at h
  by_cases h3 : k = "jpeg".toList
  · rw [if_pos h3] at h
    cases hs : sscanfU v with
    | none => rw [hs] at h; exact Option.noConfusion h
    | some n =>
      rw [hs] at h
      have e := Option.some.inj h
      subst e
      exact inv
  rw [if_neg h3] at h
  by_cases h4 : k = "port".toList
  · rw [if_pos h4] at h
    cases hs : sscanfU v with
    | none => rw [hs] at h; exact Option.noConfusion h
    | some n =>
      rw [hs] at h
      have e := Option.some.inj h
      subst e
      exact inv
  rw [if_neg h4] at h
  by_cases h5 : k = "realm".toList
  · rw [if_pos h5] at h
    have e := Option.some.inj h
    subst e
    exact inv
  rw [if_neg h5] at h
  by_cases h6 : k = "htpass".toList
  · rw [if_pos h6] at h
    have e := Option.some.inj h
    subst e
    exact Or.inr ⟨hne, rfl, rfl⟩
  rw [if_neg h6] at h
  by_cases h7 : k = "viewer".toList
  · rw [if_pos h7] at h
    cases hs : List.lookup v SupportedUserGroups with
    | none => rw [hs] at h; exact Option.noConfusion h
    | some g =>
      rw [hs] at h
      have e := Option.some.inj h
      subst e
      exact inv
  rw [if_neg h7] at h
  by_cases h8 : k = "config".toList
  · rw [if_pos h8] at h
    cases hs : List.lookup v SupportedUserGroups with
    | none => rw [hs] at h; exact Option.noConfusion h
    | some g =>
      rw [hs] at h
      have e := Option.some.inj h
      subst e
      exact inv
  rw [if_neg h8] at h
  by_cases h9 : k = "fcfg".toList
  · rw [if_pos h9] at h
    have e := Option.some.inj h
    subst e
    exact inv
  rw [if_neg h9] at h
  by_cases h10 : k = "web".toList
  · rw [if_pos h10] at h
    have e := Option.some.inj h
    subst e
    exact inv
  rw [if_neg h10] at h
  by_cases h11 : k = "title".toList
  · rw [if_pos h11] at h
    have e := Option.some.inj h
    subst e
    exact inv
  rw [if_neg h11] at h
  exact Option.noConfusion h

theorem parseLoop_groupsInv (args : List (List Char)) (st : LoopState)
    (inv : GroupsInvS st.settings) :
    GroupsInvS (parseLoop st args).1.settings := by
  induction args generalizing st with
  | nil => simpa [parseLoop_nil] using inv
  | cons t rest ih =>
    rw [parseLoop_cons]
    cases hstep : tokenStep st t with
    | none => simpa using inv
    | some st2 =>
      apply ih
      unfold tokenStep at hstep
      cases hkv : tokenKV t with
      | none => rw [hkv] at hstep; exact absurd hstep (by simp)
      | some kv =>
        obtain ⟨k, v⟩ := kv
        rw [hkv] at hstep
        exact processToken_groupsInv st st2 k v (tokenKV_value_ne_nil t k v hkv) hstep inv

theorem applyOverrides_file (st : LoopState) :
    (applyOverrides st).1.HtDigestFileName = st.settings.HtDigestFileName := by
  unfold applyOverrides
  split_ifs <;> rfl

theorem applyOverrides_noOverride (st : LoopState)
    (hv : st.overrideViewersGroup = false) (hc : st.overrideConfigGroup = false) :
    (applyOverrides st).1 = st.settings := by
  unfold applyOverrides
  simp [hv, hc]

theorem applyOverrides_spec (st : LoopState)
    (hfile : st.settings.HtDigestFileName = "")
    (hV : st.settings.ViewersGroup = UserGroup.Anyone)
    (hC : st.settings.ConfigGroup = UserGroup.Anyone) :
    (applyOverrides st).1.ViewersGroup = UserGroup.Anyone ∧
    (applyOverrides st).1.ConfigGroup = UserGroup.Anyone ∧
    ((applyOverrides st).2 = true ↔
      ((st.overrideViewersGroup = true ∧ st.viewersGroup ≠ UserGroup.Anyone) ∨
       (st.overrideConfigGroup = true ∧ st.configGroup ≠ UserGroup.Anyone))) := by
  by_cases hv : st.overrideViewersGroup = true <;>
    by_cases hcf : st.overrideConfigGroup = true <;>
      by_cases hvg : st.viewersGroup = UserGroup.Anyone <;>
        by_cases hcg : st.configGroup = UserGroup.Anyone <;>
          simp_all [applyOverrides]

theorem parseLoop_cons_none (st : LoopState) (t : List Char) (rest : List (List Char))
    (h : tokenStep st t = none) : parseLoop st (t :: rest) = (st, t :: rest) := by
  rw [parseLoop_cons, h]

theorem parseLoop_cons_some (st st2 : LoopState) (t : List Char) (rest : List (List Char))
    (h : tokenStep st t = some st2) : parseLoop st (t :: rest) = parseLoop st2 rest := by
  rw [parseLoop_cons, h]

theorem parseLoop_spec (args : List (List Char)) (st : LoopState) :
    ∃ pre : List (List Char),
      args = pre ++ (parseLoop st args).2 ∧
      parseLoop st pre = ((parseLoop st args).1, []) ∧
      ∀ hd tl, (parseLoop st args).2 = hd :: tl →
        tokenStep (parseLoop st args).1 hd = none := by
  induction args generalizing st with
  | nil =>
    refine ⟨[], by simp [parseLoop_nil], by rw [parseLoop_nil], ?_⟩
    intro hd tl hrem
    rw [parseLoop_nil] at hrem
    exact absurd hrem (by simp)
  | cons t rest ih =>
    cases hstep : tokenStep st t with
    | none =>
      rw [parseLoop_cons_none st t rest hstep]
      refine ⟨[], rfl, by rw [parseLoop_nil], ?_⟩
      intro hd tl hrem
      dsimp only at hrem ⊢
      simp only [List.cons.injEq] at hrem
      obtain ⟨rfl, rfl⟩ := hrem
      exact hstep
    | some st2 =>
      obtain ⟨pre, h1, h2, h3⟩ := ih st2
      rw [parseLoop_cons_some st st2 t rest hstep]
      refine ⟨t :: pre, ?_, ?_, h3⟩
      · rw [List.cons_append, ← h1]
      · rw [parseLoop_cons_some st st2 t pre hstep]
        exact h2

/-! ## Claim theorems: command-line parsing -/

/-- C2: if after parsing no credentials file is configured, both
authorization groups come out as `Anyone` regardless of requested overrides,
and the warning is printed exactly when a non-`Anyone` viewer or config
override had been requested. -/
theorem C2_no_credentials_forces_anyone (homeDir : Option String) (releaseBuild : Bool)
    (args : List String)
    (h : (ParseCommandLine (SetDefaultSettings homeDir releaseBuild)
        args).settings.HtDigestFileName = "") :
    (ParseCommandLine (SetDefaultSettings homeDir releaseBuild) args).settings.ViewersGroup
        = UserGroup.Anyone ∧
    (ParseCommandLine (SetDefaultSettings homeDir releaseBuild) args).settings.ConfigGroup
        = UserGroup.Anyone ∧
    ((ParseCommandLine (SetDefaultSettings homeDir releaseBuild) args).warned = true ↔
      (((ParseCommandLine (SetDefaultSettings homeDir releaseBuild)
            args).loopState.overrideViewersGroup = true ∧
        (ParseCommandLine (SetDefaultSettings homeDir releaseBuild)
            args).loopState.viewersGroup ≠ UserGroup.Anyone) ∨
       ((ParseCommandLine (SetDefaultSettings homeDir releaseBuild)
            args).loopState.overrideConfigGroup = true ∧
        (ParseCommandLine (SetDefaultSettings homeDir releaseBuild)
            args).loopState.configGroup ≠ UserGroup.Anyone))) := by
  rw [ParseCommandLine_settings] at h
  rw [ParseCommandLine_settings, ParseCommandLine_warned, ParseCommandLine_loopState]
  set st := (parseLoop (initLoopState (SetDefaultSettings homeDir releaseBuild))
    (args.map String.toList)).1 with hst
  have hfile : st.settings.HtDigestFileName = "" := by
    rw [applyOverrides_file st] at h
    exact h
  have inv := parseLoop_groupsInv (args.map String.toList)
      (initLoopState (SetDefaultSettings homeDir releaseBuild)) (Or.inl ⟨rfl, rfl, rfl⟩)
  rw [← hst] at inv
  rcases inv with ⟨-, hV, hC⟩ | ⟨hne, -, -⟩
  · exact applyOverrides_spec st hfile hV hC
  · exact absurd hfile hne

/-- C2 witness: `-viewer:admin` with no `-htpass` leaves both groups `Anyone`
and prints the warning. -/
theorem C2_no_credentials_forces_anyone_witness :
    (ParseCommandLine (SetDefaultSettings none false)
        ["-viewer:admin"]).settings.HtDigestFileName = "" ∧
    ((ParseCommandLine (SetDefaultSettings none false)
        ["-viewer:admin"]).settings.ViewersGroup = UserGroup.Anyone ∧
     (ParseCommandLine (SetDefaultSettings none false)
        ["-viewer:admin"]).settings.ConfigGroup = UserGroup.Anyone ∧
     ((ParseCommandLine (SetDefaultSettings none false) ["-viewer:admin"]).warned = true ↔
       (((ParseCommandLine (SetDefaultSettings none false)
            ["-viewer:admin"]).loopState.overrideViewersGroup = true ∧
         (ParseCommandLine (SetDefaultSettings none false)
            ["-viewer:admin"]).loopState.viewersGroup ≠ UserGroup.Anyone) ∨
        ((ParseCommandLine (SetDefaultSettings none false)
            ["-viewer:admin"]).loopState.overrideConfigGroup = true ∧
         (ParseCommandLine (SetDefaultSettings none false)
            ["-viewer:admin"]).loopState.configGroup ≠ UserGroup.Anyone)))) :=
  ⟨by decide, C2_no_credentials_forces_anyone none false ["-viewer:admin"] (by decide)⟩

theorem processToken_fps (st : LoopState) (value : List Char) :
    processToken st ("fps".toList) value =
      match sscanfU value with
      | none => none
      | some v =>
        some { st with settings :=
          { st.settings with FrameRate := if v < 1 ∨ 30 < v then 30 else v } } := rfl

theorem processToken_jpeg (st : LoopState) (value : List Char) :
    processToken st ("jpeg".toList) value =
      match sscanfU value with
      | none => none
      | some v =>
        some { st with settings := { st.settings with
          JpegQuality := if 100 < (if v < 1 then 1 else v) then 100
                         else (if v < 1 then 1 else v) } } := rfl

theorem processToken_port (st : LoopState) (value : List Char) :
    processToken st ("port".toList) value =
      match sscanfU value with
      | none => none
      | some v =>
        some { st with settings :=
          { st.settings with WebPort := if 65535 < v then 65535 else v } } := rfl

/-- C3: every numeric value accepted by `sscanf "%u"` is clamped rather than
rejected — frame rate outside [1,30] becomes 30, JPEG quality is clamped to
[1,100], port is capped at 65535 — and the scenario
`-port:9090 -fps:45 -jpeg:150` yields port 9090, frame rate 30,
JPEG quality 100. -/
theorem C3_numeric_clamping :
    (∀ (st : LoopState) (value : List Char) (v : Nat), sscanfU value = some v →
      (processToken st ("fps".toList) value).map (fun s2 => s2.settings.FrameRate) =
        some (if v < 1 ∨ 30 < v then 30 else v)) ∧
    (∀ (st : LoopState) (value : List Char) (v : Nat), sscanfU value = some v →
      (processToken st ("jpeg".toList) value).map (fun s2 => s2.settings.JpegQuality) =
        some (if v < 1 then 1 else if 100 < v then 100 else v)) ∧
    (∀ (st : LoopState) (value : List Char) (v : Nat), sscanfU value = some v →
      (processToken st ("port".toList) value).map (fun s2 => s2.settings.WebPort) =
        some (if 65535 < v then 65535 else v)) ∧
    ((ParseCommandLine (SetDefaultSettings none false)
        ["-port:9090", "-fps:45", "-jpeg:150"]).settings.WebPort = 9090 ∧
     (ParseCommandLine (SetDefaultSettings none false)
        ["-port:9090", "-fps:45", "-jpeg:150"]).settings.FrameRate = 30 ∧
     (ParseCommandLine (SetDefaultSettings none false)
        ["-port:9090", "-fps:45", "-jpeg:150"]).settings.JpegQuality = 100 ∧
     (ParseCommandLine (SetDefaultSettings none false)
        ["-port:9090", "-fps:45", "-jpeg:150"]).ok = true) := by
  refine ⟨?_, ?_, ?_, by decide⟩
  · intro st value v h
    rw [processToken_fps, h]
    rfl
  · intro st value v h
    rw [processToken_jpeg, h]
    simp only [Option.map_some']
    rw [Option.some.injEq]
    split_ifs <;> omega
  · intro st value v h
    rw [processToken_port, h]
    rfl

/-- C3 witness: concrete clamping of `-fps:45` from the default state. -/
theorem C3_numeric_clamping_witness :
    sscanfU ("45".toList) = some 45 ∧
    (processToken (initLoopState (SetDefaultSettings none false)) ("fps".toList)
        ("45".toList)).map (fun s2 => s2.settings.FrameRate) =
      some (if 45 < 1 ∨ 30 < 45 then 30 else 45) :=
  ⟨by decide,
   C3_numeric_clamping.1 (initLoopState (SetDefaultSettings none false))
     ("45".toList) 45 (by decide)⟩

/-- The option keys recognized by the `ParseCommandLine` dispatch; per the
claim's wording, a well-formed token whose key is not in this list is
"unrecognized". -/
def recognizedKeys : List (List Char) :=
  ["size", "fps", "jpeg", "port", "realm", "htpass",
   "viewer", "config", "fcfg", "web", "title"].map String.toList

/-- C4 counterexample: the token `-fps:abc` is not malformed in the claim's
sense (it has a `':'`, starts with `'-'`, and has non-empty key and value, so
`tokenKV` accepts it) and its key `fps` is recognized — yet `ParseCommandLine`
stops at it (leaves it unconsumed) and returns `false`, because the value
fails numeric conversion, a stopping condition the claim does not admit. -/
theorem C4_stop_counterexample :
    tokenKV ("-fps:abc".toList) = some ("fps".toList, "abc".toList) ∧
    "fps".toList ∈ recognizedKeys ∧
    (ParseCommandLine (SetDefaultSettings none false) ["-fps:abc"]).ok = false ∧
    (ParseCommandLine (SetDefaultSettings none false) ["-fps:abc"]).remaining =
      ["-fps:abc".toList] := by decide

/-- C4 (amended): `ParseCommandLine` stops at the first token that fails its
loop step — i.e. that is malformed, has an unrecognized key, or has an invalid
value for its key (size digit outside 0-4, non-numeric fps/jpeg/port value,
unknown viewer/config group) — all tokens consumed before that point have
their effects applied to the loop state, the first remaining token (if any)
fails the loop step, and the function returns `true` iff every token was
consumed. -/
theorem C4_stop_at_first_failing_token (init : Settings) (args : List String) :
    ∃ pre : List (List Char),
      args.map String.toList = pre ++ (ParseCommandLine init args).remaining ∧
      parseLoop (initLoopState init) pre = ((ParseCommandLine init args).loopState, []) ∧
      (∀ hd tl, (ParseCommandLine init args).remaining = hd :: tl →
        tokenStep (ParseCommandLine init args).loopState hd = none) ∧
      ((ParseCommandLine init args).ok = true ↔
        (ParseCommandLine init args).remaining = []) := by
  rw [ParseCommandLine_remaining, ParseCommandLine_loopState, ParseCommandLine_ok]
  obtain ⟨pre, h1, h2, h3⟩ := parseLoop_spec (args.map String.toList) (initLoopState init)
  exact ⟨pre, h1, h2, h3, by simp⟩

/-- C4 witness: with `-fps:45 -bogus:1`, the first token is consumed and
applied, the second stops the parse. -/
theorem C4_stop_at_first_failing_token_witness :
    ∃ pre : List (List Char),
      (["-fps:45", "-bogus:1"].map String.toList) =
        pre ++ (ParseCommandLine (SetDefaultSettings none false)
          ["-fps:45", "-bogus:1"]).remaining ∧
      parseLoop (initLoopState (SetDefaultSettings none false)) pre =
        ((ParseCommandLine (SetDefaultSettings none false)
          ["-fps:45", "-bogus:1"]).loopState, []) ∧
      (∀ hd tl, (ParseCommandLine (SetDefaultSettings none false)
          ["-fps:45", "-bogus:1"]).remaining = hd :: tl →
        tokenStep (ParseCommandLine (SetDefaultSettings none false)
          ["-fps:45", "-bogus:1"]).loopState hd = none) ∧
      ((ParseCommandLine (SetDefaultSettings none false) ["-fps:45", "-bogus:1"]).ok = true ↔
        (ParseCommandLine (SetDefaultSettings none false)
          ["-fps:45", "-bogus:1"]).remaining = []) :=
  C4_stop_at_first_failing_token (SetDefaultSettings none false) ["-fps:45", "-bogus:1"]

/-- C10 counterexample: `-viewer:any -htpass:users.dat` contains a well-formed
applied `-htpass` token with no subsequent `-viewer`/`-config` token, yet the
resulting `ViewersGroup` is `Anyone`, not `User`: the override recorded
*before* the `-htpass` is applied after the loop ends, because override
application is position-independent. -/
theorem C10_htpass_counterexample :
    (ParseCommandLine (SetDefaultSettings none false)
        ["-viewer:any", "-htpass:users.dat"]).ok = true ∧
    (ParseCommandLine (SetDefaultSettings none false)
        ["-viewer:any", "-htpass:users.dat"]).settings.HtDigestFileName = "users.dat" ∧
    (ParseCommandLine (SetDefaultSettings none false)
        ["-viewer:any", "-htpass:users.dat"]).settings.ViewersGroup = UserGroup.Anyone ∧
    (ParseCommandLine (SetDefaultSettings none false)
        ["-viewer:any", "-htpass:users.dat"]).settings.ConfigGroup = UserGroup.Admin := by
  decide

/-- C10 (amended): if parsing (from the defaults) applied a `-htpass` token
(the credentials file ends up non-empty) and no `-viewer` or `-config`
override was applied anywhere in the sequence — before or after the
`-htpass` — then `ViewersGroup` is `User` and `ConfigGroup` is `Admin`. -/
theorem C10_htpass_sets_groups (homeDir : Option String) (releaseBuild : Bool)
    (args : List String)
    (hfile : (ParseCommandLine (SetDefaultSettings homeDir releaseBuild)
        args).settings.HtDigestFileName ≠ "")
    (hov : (ParseCommandLine (SetDefaultSettings homeDir releaseBuild)
        args).loopState.overrideViewersGroup = false)
    (hoc : (ParseCommandLine (SetDefaultSettings homeDir releaseBuild)
        args).loopState.overrideConfigGroup = false) :
    (ParseCommandLine (SetDefaultSettings homeDir releaseBuild)
        args).settings.ViewersGroup = UserGroup.User ∧
    (ParseCommandLine (SetDefaultSettings homeDir releaseBuild)
        args).settings.ConfigGroup = UserGroup.Admin := by
  rw [ParseCommandLine_settings] at hfile
  rw [ParseCommandLine_loopState] at hov hoc
  rw [ParseCommandLine_settings]
  set st := (parseLoop (initLoopState (SetDefaultSettings homeDir releaseBuild))
    (args.map String.toList)).1 with hst
  rw [applyOverrides_noOverride st hov hoc] at hfile
  rw [applyOverrides_noOverride st hov hoc]
  have inv := parseLoop_groupsInv (args.map String.toList)
      (initLoopState (SetDefaultSettings homeDir releaseBuild)) (Or.inl ⟨rfl, rfl, rfl⟩)
  rw [← hst] at inv
  rcases inv with ⟨he, -, -⟩ | ⟨-, hV, hC⟩
  · exact absurd he hfile
  · exact ⟨hV, hC⟩

/-- C10 witness: a lone `-htpass` token tightens both groups. -/
theorem C10_htpass_sets_groups_witness :
    (ParseCommandLine (SetDefaultSettings none false)
        ["-htpass:users.dat"]).settings.ViewersGroup = UserGroup.User ∧
    (ParseCommandLine (SetDefaultSettings none false)
        ["-htpass:users.dat"]).settings.ConfigGroup = UserGroup.Admin :=
  C10_htpass_sets_groups none false ["-htpass:users.dat"]
    (by decide) (by decide) (by decide)
